import Mathlib

/-!
Shallow embedding of `src/scripts/generate_network_report.py`
(the test-report aggregator of the VampireSurvivors repository)
and verification of the frozen claims about it.

Python floats are modelled as rationals (ℚ); the XML layer is modelled
abstractly: a discovered file is either a well-formed document holding a
list of test-case elements, or a malformed one carrying the message of the
`xml.etree.ElementTree.ParseError` it would raise.
-/

namespace NetworkReport

/-- Exceptions that can escape the aggregation loop.  Only
`ET.ParseError` is caught by the source; a `ValueError` raised by
`float(...)` propagates and aborts the run. -/
inductive PyError where
  | valueError
deriving DecidableEq, Repr

/-- One `<testcase>` element as the source reads it:
`name` and `classname` attributes (absent modelled as `none`),
the raw string of the `time` attribute (`none` when absent),
presence of a `<failure>` sub-element, and the `<system-out>` child:
`none` when the element is absent, `some none` when present with no text,
`some (some s)` when present with text `s`. -/
structure TestCase where
  name : Option String
  classname : Option String
  time : Option String
  failure : Bool
  systemOut : Option (Option String)
deriving DecidableEq, Repr

/-- One discovered XML file: either well-formed, yielding the list of
test-case elements that `root.findall('.//testcase')` returns in document
order, or malformed, in which case `ET.parse` raises `ParseError` with
the given message. -/
inductive XmlDoc where
  | ok (testcases : List TestCase)
  | malformed (msg : String)
deriving DecidableEq, Repr

/-- Abstract filesystem: `dirs` is the set of directory paths that exist;
`files` lists the XML files in the order the OS enumeration (and hence
`Path.glob`) yields them.  `pathlib.Path.glob` never consults whether the
root exists: on a nonexistent root it returns an empty iterator rather
than raising, which is why discovery reads `dirs` nowhere. -/
structure FileSystem where
  dirs : List String
  files : List (String × XmlDoc)
deriving DecidableEq, Repr

/-- Boolean test that `pat` is a prefix of `hay` (character lists). -/
def isPref : List Char → List Char → Bool
  | [], _ => true
  | _ :: _, [] => false
  | a :: as, b :: bs => a == b && isPref as bs

/-- Boolean substring search over character lists. -/
def substrAux (pat : List Char) : List Char → Bool
  | [] => isPref pat []
  | c :: rest => isPref pat (c :: rest) || substrAux pat rest

/-- Python's `pat in s` for strings: literal substring containment. -/
def strContains (s pat : String) : Bool :=
  substrAux pat.toList s.toList

/-- Value of a digit string. -/
def digitsVal (cs : List Char) : Nat :=
  cs.foldl (fun a c => a * 10 + (c.toNat - 48)) 0

/-- Models Python's builtin `float(string)` on the plain decimal-literal
fragment (optional sign, digits with optional fractional part, optional
exponent); `none` models the `ValueError` that `float` raises on any
string outside that fragment (e.g. `float("abc")`).  The special forms
`inf`/`nan`, digit-group underscores and surrounding whitespace are not
modelled; no theorem below applies `pyFloat` to such a string. -/
def pyFloat (s : String) : Option ℚ :=
  let cs := s.toList
  let sc : ℚ × List Char :=
    match cs with
    | '-' :: rest => (-1, rest)
    | '+' :: rest => (1, rest)
    | _ => (1, cs)
  let ip := sc.2.takeWhile Char.isDigit
  let cs1 := sc.2.dropWhile Char.isDigit
  let fc : List Char × List Char :=
    match cs1 with
    | '.' :: rest => (rest.takeWhile Char.isDigit, rest.dropWhile Char.isDigit)
    | _ => ([], cs1)
  if ip.isEmpty && fc.1.isEmpty then none
  else
    let mant : ℚ := (digitsVal (ip ++ fc.1) : ℚ) / (10 : ℚ) ^ fc.1.length
    match fc.2 with
    | [] => some (sc.1 * mant)
    | e :: rest =>
      if e == 'e' || e == 'E' then
        let es : Bool × List Char :=
          match rest with
          | '-' :: r => (true, r)
          | '+' :: r => (false, r)
          | _ => (false, rest)
        let ed := es.2.takeWhile Char.isDigit
        let tail := es.2.dropWhile Char.isDigit
        if ed.isEmpty || !tail.isEmpty then none
        else
          let scale : ℚ := (10 : ℚ) ^ digitsVal ed
          some (sc.1 * mant * (if es.1 then scale⁻¹ else scale))
      else none

/-- `float(testcase.get('time', 0))`: a missing `time` attribute defaults
to the integer `0` (so `float` returns `0.0`); a present attribute is fed
to `float`, whose `ValueError` on a non-numeric string is not caught
anywhere in the source. -/
def extractDuration : Option String → Except PyError ℚ
  | none => .ok 0
  | some s =>
    match pyFloat s with
    | some q => .ok q
    | none => .error .valueError

/-- `latency` sub-dictionary of the metrics. -/
@[ext]
structure Latency where
  average : ℚ
  min : ℚ
  max : ℚ
  samples : Nat
deriving DecidableEq, Repr

/-- `bandwidth` sub-dictionary of the metrics. -/
structure Bandwidth where
  upstream : ℚ
  downstream : ℚ
  peak : ℚ
deriving DecidableEq, Repr

/-- `scenarios` sub-dictionary of the metrics. -/
structure Scenarios where
  twoPlayers : Bool
  threePlayers : Bool
  fourPlayers : Bool
deriving DecidableEq, Repr

/-- One entry of the `tests` list of the metrics. -/
structure TestEntry where
  name : String
  «class» : String
  status : String
  duration : ℚ
deriving DecidableEq, Repr

/-- The `metrics` dictionary built by `parse_test_results`. -/
structure Metrics where
  latency : Latency
  bandwidth : Bandwidth
  scenarios : Scenarios
  tests : List TestEntry
deriving DecidableEq, Repr

/-- The initial `metrics` dictionary literal at the top of
`parse_test_results`. -/
def initMetrics : Metrics :=
  { latency := { average := 0, min := 0, max := 0, samples := 0 }
    bandwidth := { upstream := 0, downstream := 0, peak := 0 }
    scenarios := { twoPlayers := false, threePlayers := false, fourPlayers := false }
    tests := [] }

/-- The scenario-flag `if/elif/elif` chain of the source, applied to one
record ( `test_name` and the `system-out` text `output`). -/
def scenUpdate (s : Scenarios) (test_name output : String) : Scenarios :=
  if strContains test_name "TwoPlayers" && strContains output "PASS" then
    { s with twoPlayers := true }
  else if strContains test_name "ThreePlayer" && strContains output "PASS" then
    { s with threePlayers := true }
  else if strContains test_name "FourPlayer" && strContains output "PASS" then
    { s with fourPlayers := true }
  else s

/-- The `if system_out is not None and system_out.text:` block: latency
sample counting followed by the scenario-flag chain, both gated on the
`system-out` element being present with non-empty text. -/
def diagPhase (m : Metrics) (test_name : String) (sysOut : Option (Option String)) : Metrics :=
  match sysOut with
  | some (some output) =>
    if output ≠ "" then
      let m1 :=
        if strContains output "Latency" || strContains output "latency" then
          { m with latency := { m.latency with samples := m.latency.samples + 1 } }
        else m
      { m1 with scenarios := scenUpdate m1.scenarios test_name output }
    else m
  | _ => m

/-- Loop body of `for testcase in root.findall('.//testcase')` after the
duration has been extracted: diagnostic-text phase, then the append of
the simplified record to `metrics["tests"]`. -/
def tcApply (m : Metrics) (tc : TestCase) (time : ℚ) : Metrics :=
  let test_name := tc.name.getD ""
  let classname := tc.classname.getD ""
  let m1 := diagPhase m test_name tc.systemOut
  let status := if tc.failure then "FAIL" else "PASS"
  { m1 with tests := m1.tests ++ [{ name := test_name, «class» := classname,
                                    status := status, duration := time }] }

/-- One iteration of the test-case loop.  `float(testcase.get('time', 0))`
runs first; its `ValueError` (uncaught) aborts everything after it. -/
def processTestCase (m : Metrics) (tc : TestCase) : Except PyError Metrics :=
  (extractDuration tc.time).map (tcApply m tc)

/-- The test-case loop over one well-formed document. -/
def processTestCases (m : Metrics) : List TestCase → Except PyError Metrics
  | [] => .ok m
  | tc :: rest =>
    match processTestCase m tc with
    | .error e => .error e
    | .ok m1 => processTestCases m1 rest

/-- One iteration of the file loop: `ET.parse` failure is caught, printed
(`Error parsing <file>: <cause>`) and skipped via `continue`; any other
exception propagates. -/
def processFile (m : Metrics) (log : List String) (f : String × XmlDoc) :
    Except PyError (Metrics × List String) :=
  match f.2 with
  | .malformed msg => .ok (m, log ++ ["Error parsing " ++ f.1 ++ ": " ++ msg])
  | .ok tcs => (processTestCases m tcs).map (fun m1 => (m1, log))

/-- The file loop of `parse_test_results`. -/
def processFiles (m : Metrics) (log : List String) :
    List (String × XmlDoc) → Except PyError (Metrics × List String)
  | [] => .ok (m, log)
  | f :: rest =>
    match processFile m log f with
    | .error e => .error e
    | .ok (m1, log1) => processFiles m1 log1 rest

/-- Suffix test used to model the `*.xml` pattern. -/
def endsWith (s suf : String) : Bool :=
  isPref suf.toList.reverse s.toList.reverse

/-- `Path(test_dir).glob("**/*.xml")`: every file lying under `test_dir`
(at any depth, `**` matching zero or more directories) whose name ends in
`.xml`, in the order the OS enumeration lists it; the glob never sorts and
never consults whether `test_dir` itself exists. -/
def globXml (fs : FileSystem) (root : String) : List (String × XmlDoc) :=
  fs.files.filter (fun f => isPref (root ++ "/").toList f.1.toList && endsWith f.1 ".xml")

/-- The `# Calculate averages` tail of `parse_test_results`: when
`metrics["tests"]` is non-empty, `latency.average` becomes the sum of the
recorded durations divided by their number. -/
def finalAvg (m : Metrics) : Metrics :=
  if m.tests.isEmpty then m
  else
    { m with latency := { m.latency with
        average := (m.tests.map TestEntry.duration).sum / (m.tests.length : ℚ) } }

/-- `parse_test_results(test_dir)`: discovery, the early return with the
`No test results found` notice on an empty glob, the file loop, and the
final average computation guarded by `if metrics["tests"]:`.  The second
component of the result collects what the function prints. -/
def parse_test_results (fs : FileSystem) (test_dir : String) :
    Except PyError (Metrics × List String) :=
  let xml_files := globXml fs test_dir
  if xml_files.isEmpty then
    .ok (initMetrics, ["No test results found in " ++ test_dir])
  else
    match processFiles initMetrics [] xml_files with
    | .error e => .error e
    | .ok (m, log) => .ok (finalAvg m, log)

/-- Outcome of `main`: the usage exit (`sys.exit(1)` before any work, the
usage line printed, nothing written), a completed run (artifact written to
`outputPath`), or an abort by an uncaught exception (nothing written). -/
inductive RunOutcome where
  | usageExit (msgs : List String) (code : Nat)
  | completed (outputPath : String) (artifact : Metrics) (msgs : List String)
  | aborted (err : PyError)
deriving DecidableEq, Repr

/-- The usage line printed by `main`. -/
def usageMsg : String :=
  "Usage: generate_network_report.py <test_results_dir> [--output output.json]"

/-- Index of the first occurrence of `v` in `l` (`sys.argv.index`). -/
def indexOfStr (v : String) : List String → Option Nat
  | [] => none
  | a :: rest => if a == v then some 0 else (indexOfStr v rest).map (· + 1)

/-- The `--output` handling of `main`: the default name, overridden by the
value following the first `--output` when one follows it. -/
def outputFile (argv : List String) : String :=
  match indexOfStr "--output" argv with
  | some idx =>
    match argv.get? (idx + 1) with
    | some f => f
    | none => "network_metrics.json"
  | none => "network_metrics.json"

/-- `main()` of the source: the `len(sys.argv) < 2` usage check (exit
code 1, no work done), then `parse_test_results` on `sys.argv[1]` and the
write of the artifact.  The model filesystem write always succeeds. -/
def main (argv : List String) (fs : FileSystem) : RunOutcome :=
  match argv with
  | [] => .usageExit [usageMsg] 1
  | [_] => .usageExit [usageMsg] 1
  | _ :: test_dir :: _ =>
    match parse_test_results fs test_dir with
    | .error e => .aborted e
    | .ok (m, log) =>
      .completed (outputFile argv) m
        (log ++ ["Network metrics report generated: " ++ outputFile argv])

/-! ## Characterizations used to state the claims

The definitions below do not translate source lines; they are the closed
forms through which the behaviour of the loop is stated and proved. -/

/-- Text of the `system-out` child as the source observes it: the gate
`system_out is not None and system_out.text` collapses an absent element,
an empty element and empty text to the same behaviour as empty text. -/
def textOf : Option (Option String) → String
  | some (some o) => o
  | _ => ""

/-- `test_name` of a record: `testcase.get('name', '')`. -/
def pyName (tc : TestCase) : String := tc.name.getD ""

/-- `classname` of a record: `testcase.get('classname', '')`. -/
def pyClass (tc : TestCase) : String := tc.classname.getD ""

/-- Diagnostic text of a record. -/
def diagText (tc : TestCase) : String := textOf tc.systemOut

/-- Status string of a record: `FAIL` iff a `<failure>` child is present. -/
def statusOf (tc : TestCase) : String := if tc.failure then "FAIL" else "PASS"

/-- The record turns the `twoPlayers` flag on: its name contains
`TwoPlayers` and its diagnostic text contains `PASS`. -/
def cond2 (tc : TestCase) : Bool :=
  strContains (pyName tc) "TwoPlayers" && strContains (diagText tc) "PASS"

/-- The record turns the `threePlayers` flag on: because of the `elif`,
this additionally requires that the `TwoPlayers` branch was not taken. -/
def cond3 (tc : TestCase) : Bool :=
  !(strContains (pyName tc) "TwoPlayers" && strContains (diagText tc) "PASS") &&
    (strContains (pyName tc) "ThreePlayer" && strContains (diagText tc) "PASS")

/-- The record turns the `fourPlayers` flag on: because of the `elif`
chain, this additionally requires that neither earlier branch was taken. -/
def cond4 (tc : TestCase) : Bool :=
  !(strContains (pyName tc) "TwoPlayers" && strContains (diagText tc) "PASS") &&
    !(strContains (pyName tc) "ThreePlayer" && strContains (diagText tc) "PASS") &&
    (strContains (pyName tc) "FourPlayer" && strContains (diagText tc) "PASS")

/-- The record is counted as a latency sample: its diagnostic text
contains `Latency` or `latency` (exact case). -/
def condLat (tc : TestCase) : Bool :=
  strContains (diagText tc) "Latency" || strContains (diagText tc) "latency"

/-- Case-insensitive substring containment; this follows the words of the
spec (`case-insensitive substring match on "latency"`), for comparison
with the exact-case test the source performs. -/
def strContainsCI (s pat : String) : Bool :=
  strContains (String.mk (s.toList.map Char.toLower)) (String.mk (pat.toList.map Char.toLower))

/-- The duration of a record parses (`float` does not raise). -/
def durOk (tc : TestCase) : Bool :=
  match extractDuration tc.time with
  | .ok _ => true
  | .error _ => false

/-- The parsed duration of a record (0 in the error case, which the
theorems below rule out wherever it matters). -/
def durOf (tc : TestCase) : ℚ :=
  match extractDuration tc.time with
  | .ok q => q
  | .error _ => 0

/-- The simplified entry the loop appends to `metrics["tests"]` for a
record. -/
def entryOf (tc : TestCase) : TestEntry :=
  { name := pyName tc, «class» := pyClass tc, status := statusOf tc, duration := durOf tc }

/-- Records of one discovered file: those of a well-formed document, none
of a malformed one. -/
def docRecs (f : String × XmlDoc) : List TestCase :=
  match f.2 with
  | .ok tcs => tcs
  | .malformed _ => []

/-- All records of the well-formed documents, in discovery order. -/
def goodRecords : List (String × XmlDoc) → List TestCase
  | [] => []
  | f :: rest => docRecs f ++ goodRecords rest

/-- The `Error parsing <file>: <cause>` lines, one per malformed
document, in discovery order. -/
def errLog : List (String × XmlDoc) → List String
  | [] => []
  | f :: rest =>
    match f.2 with
    | .malformed msg => ("Error parsing " ++ f.1 ++ ": " ++ msg) :: errLog rest
    | .ok _ => errLog rest

/-- Pure replay of the test-case loop under the assumption that every
duration parses. -/
def applyAll (m : Metrics) : List TestCase → Metrics
  | [] => m
  | tc :: rest => applyAll (tcApply m tc (durOf tc)) rest

/-! ## Concrete fixtures used by counterexamples and witnesses -/

/-- A record whose name carries two scenario markers at once. -/
def tcMulti : TestCase :=
  { name := some "TwoPlayersThreePlayerTest", classname := none, time := none,
    failure := false, systemOut := some (some "PASS") }

/-- A record with a non-numeric `time` attribute. -/
def tcBadTime : TestCase :=
  { name := some "NetTest", classname := none, time := some "abc",
    failure := false, systemOut := none }

/-- A record whose diagnostic text mentions latency in capitals only. -/
def tcLatCaps : TestCase :=
  { name := some "LatTest", classname := none, time := none,
    failure := false, systemOut := some (some "LATENCY 5ms") }

/-- A failing record (failure child present) whose name and diagnostic
text satisfy the `twoPlayers` conditions. -/
def tcFailPass : TestCase :=
  { name := some "TwoPlayersScenario", classname := some "Net", time := none,
    failure := true, systemOut := some (some "Latency OK - PASS") }

/-- A plain passing record with no diagnostics. -/
def tcPlain : TestCase :=
  { name := some "caseA", classname := none, time := none,
    failure := false, systemOut := none }

/-- A second plain record. -/
def tcPlainB : TestCase :=
  { name := some "caseB", classname := none, time := none,
    failure := false, systemOut := none }

/-- One document holding the double-marker record. -/
def fsScen : FileSystem :=
  { dirs := ["results"], files := [("results/scen.xml", .ok [tcMulti])] }

/-- One document holding the all-caps latency record. -/
def fsLat : FileSystem :=
  { dirs := ["results"], files := [("results/lat.xml", .ok [tcLatCaps])] }

/-- One well-formed document with zero test cases. -/
def fsEmptyDoc : FileSystem :=
  { dirs := ["results"], files := [("results/empty.xml", .ok [])] }

/-- One well-formed and one malformed document. -/
def fsMixed : FileSystem :=
  { dirs := ["results"],
    files := [("results/good.xml", .ok [tcPlain]),
              ("results/broken.xml", .malformed "not well-formed: invalid token")] }

/-- One well-formed document whose record has a non-numeric duration,
next to one malformed document. -/
def fsBadMixed : FileSystem :=
  { dirs := ["results"],
    files := [("results/good.xml", .ok [tcBadTime]),
              ("results/broken.xml", .malformed "not well-formed: invalid token")] }

/-- The root `results` does not exist. -/
def fsAbsent : FileSystem :=
  { dirs := [], files := [("other/x.xml", .ok [])] }

/-- The root `results` exists but holds no candidate file. -/
def fsEmptyRoot : FileSystem :=
  { dirs := ["results"], files := [("other/x.xml", .ok [])] }

/-- Two documents enumerated in one order. -/
def fsO1 : FileSystem :=
  { dirs := ["r"], files := [("r/a.xml", .ok [tcPlain]), ("r/b.xml", .ok [tcPlainB])] }

/-- The same two documents enumerated in the opposite order. -/
def fsO2 : FileSystem :=
  { dirs := ["r"], files := [("r/b.xml", .ok [tcPlainB]), ("r/a.xml", .ok [tcPlain])] }

/-- Metrics produced on `fsScen`. -/
def mScen : Metrics :=
  { latency := { average := 0, min := 0, max := 0, samples := 0 }
    bandwidth := { upstream := 0, downstream := 0, peak := 0 }
    scenarios := { twoPlayers := true, threePlayers := false, fourPlayers := false }
    tests := [{ name := "TwoPlayersThreePlayerTest", «class» := "", status := "PASS",
                duration := 0 }] }

/-- Metrics produced on `fsLat`. -/
def mLat : Metrics :=
  { latency := { average := 0, min := 0, max := 0, samples := 0 }
    bandwidth := { upstream := 0, downstream := 0, peak := 0 }
    scenarios := { twoPlayers := false, threePlayers := false, fourPlayers := false }
    tests := [{ name := "LatTest", «class» := "", status := "PASS", duration := 0 }] }

/-- Metrics produced on `fsO1`. -/
def m9a : Metrics :=
  { latency := { average := 0, min := 0, max := 0, samples := 0 }
    bandwidth := { upstream := 0, downstream := 0, peak := 0 }
    scenarios := { twoPlayers := false, threePlayers := false, fourPlayers := false }
    tests := [{ name := "caseA", «class» := "", status := "PASS", duration := 0 },
              { name := "caseB", «class» := "", status := "PASS", duration := 0 }] }

/-- Metrics produced on `fsO2`. -/
def m9b : Metrics :=
  { latency := { average := 0, min := 0, max := 0, samples := 0 }
    bandwidth := { upstream := 0, downstream := 0, peak := 0 }
    scenarios := { twoPlayers := false, threePlayers := false, fourPlayers := false }
    tests := [{ name := "caseB", «class» := "", status := "PASS", duration := 0 },
              { name := "caseA", «class» := "", status := "PASS", duration := 0 }] }

/-! ## Structural lemmas about the loop -/

theorem strContains_nil_PASS : strContains "" "PASS" = false := by decide

theorem strContains_nil_Lat : strContains "" "Latency" = false := by decide

theorem strContains_nil_lat : strContains "" "latency" = false := by decide

theorem scenUpdate_eq (s : Scenarios) (n o : String) :
    scenUpdate s n o =
      { twoPlayers := s.twoPlayers || (strContains n "TwoPlayers" && strContains o "PASS")
        threePlayers := s.threePlayers ||
          (!(strContains n "TwoPlayers" && strContains o "PASS") &&
            (strContains n "ThreePlayer" && strContains o "PASS"))
        fourPlayers := s.fourPlayers ||
          (!(strContains n "TwoPlayers" && strContains o "PASS") &&
            !(strContains n "ThreePlayer" && strContains o "PASS") &&
            (strContains n "FourPlayer" && strContains o "PASS")) } := by
  unfold scenUpdate
  cases h2 : strContains n "TwoPlayers" <;>
    cases h3 : strContains n "ThreePlayer" <;>
      cases h4 : strContains n "FourPlayer" <;>
        cases hp : strContains o "PASS" <;> simp

theorem scenUpdate_nil (s : Scenarios) (n : String) : scenUpdate s n "" = s := by
  rw [scenUpdate_eq]
  simp [strContains_nil_PASS]

theorem diagPhase_eq (m : Metrics) (n : String) (so : Option (Option String)) :
    diagPhase m n so =
      { m with
        latency := { m.latency with samples := m.latency.samples +
          (if strContains (textOf so) "Latency" || strContains (textOf so) "latency"
           then 1 else 0) }
        scenarios := scenUpdate m.scenarios n (textOf so) } := by
  match so with
  | none =>
    simp [diagPhase, textOf, strContains_nil_Lat, strContains_nil_lat, scenUpdate_nil]
  | some none =>
    simp [diagPhase, textOf, strContains_nil_Lat, strContains_nil_lat, scenUpdate_nil]
  | some (some o) =>
    by_cases ho : o = ""
    · subst ho
      simp [diagPhase, textOf, strContains_nil_Lat, strContains_nil_lat, scenUpdate_nil]
    · simp only [diagPhase, textOf, if_pos ho, ne_eq, ho, not_false_iff, if_true]
      split_ifs <;> rfl

theorem tcApply_eq (m : Metrics) (tc : TestCase) (t : ℚ) :
    tcApply m tc t =
      { latency := { average := m.latency.average, min := m.latency.min,
                     max := m.latency.max,
                     samples := m.latency.samples + (if condLat tc then 1 else 0) }
        bandwidth := m.bandwidth
        scenarios := { twoPlayers := m.scenarios.twoPlayers || cond2 tc
                       threePlayers := m.scenarios.threePlayers || cond3 tc
                       fourPlayers := m.scenarios.fourPlayers || cond4 tc }
        tests := m.tests ++ [{ name := pyName tc, «class» := pyClass tc,
                               status := statusOf tc, duration := t }] } := by
  simp only [tcApply]
  rw [diagPhase_eq, scenUpdate_eq]
  rfl

theorem processTestCase_ok (m : Metrics) (tc : TestCase) (h : durOk tc = true) :
    processTestCase m tc = .ok (tcApply m tc (durOf tc)) := by
  cases he : extractDuration tc.time with
  | ok q => simp [processTestCase, durOf, he, Except.map]
  | error e => simp [durOk, he] at h

theorem processTestCase_err (m : Metrics) (tc : TestCase) (h : durOk tc = false) :
    processTestCase m tc = .error PyError.valueError := by
  cases he : extractDuration tc.time with
  | ok q => simp [durOk, he] at h
  | error e => cases e; simp [processTestCase, he, Except.map]

theorem processTestCases_eq (l : List TestCase) : ∀ m : Metrics,
    processTestCases m l =
      if l.all durOk then .ok (applyAll m l) else .error PyError.valueError := by
  induction l with
  | nil => intro m; simp [processTestCases, applyAll]
  | cons tc rest ih =>
    intro m
    cases h : durOk tc with
    | true =>
      simp only [processTestCases, processTestCase_ok m tc h, ih, List.all_cons, h,
        Bool.true_and, applyAll]
    | false =>
      simp only [processTestCases, processTestCase_err m tc h, List.all_cons, h,
        Bool.false_and, Bool.false_eq_true, if_false]

theorem applyAll_eq (l : List TestCase) : ∀ m : Metrics,
    applyAll m l =
      { latency := { average := m.latency.average, min := m.latency.min,
                     max := m.latency.max,
                     samples := m.latency.samples + l.countP condLat }
        bandwidth := m.bandwidth
        scenarios := { twoPlayers := m.scenarios.twoPlayers || l.any cond2
                       threePlayers := m.scenarios.threePlayers || l.any cond3
                       fourPlayers := m.scenarios.fourPlayers || l.any cond4 }
        tests := m.tests ++ l.map entryOf } := by
  induction l with
  | nil => intro m; simp [applyAll]
  | cons tc rest ih =>
    intro m
    rw [applyAll, ih (tcApply m tc (durOf tc)), tcApply_eq]
    simp only [List.countP_cons, List.any_cons, List.map_cons, List.cons_append,
      List.append_assoc, List.singleton_append, Bool.or_assoc, Metrics.mk.injEq,
      Latency.mk.injEq, Scenarios.mk.injEq, entryOf, true_and, and_true]
    exact ⟨by omega, by simp⟩

theorem applyAll_append (l1 l2 : List TestCase) : ∀ m : Metrics,
    applyAll m (l1 ++ l2) = applyAll (applyAll m l1) l2 := by
  induction l1 with
  | nil => intro m; simp [applyAll]
  | cons tc rest ih =>
    intro m
    simp only [List.cons_append, applyAll, List.append_eq, ih]

theorem processFiles_eq (files : List (String × XmlDoc)) : ∀ m : Metrics, ∀ log : List String,
    processFiles m log files =
      if (goodRecords files).all durOk then
        .ok (applyAll m (goodRecords files), log ++ errLog files)
      else .error PyError.valueError := by
  induction files with
  | nil => intro m log; simp [processFiles, goodRecords, errLog, applyAll]
  | cons f rest ih =>
    intro m log
    obtain ⟨path, doc⟩ := f
    cases doc with
    | malformed msg =>
      simp only [processFiles, processFile, ih, goodRecords, docRecs, errLog,
        List.nil_append, List.append_assoc, List.singleton_append]
    | ok tcs =>
      simp only [processFiles, processFile, processTestCases_eq]
      cases htc : tcs.all durOk with
      | false =>
        simp [Except.map, goodRecords, docRecs, errLog, List.all_append, htc]
      | true =>
        simp only [htc, if_true, Except.map, ih, goodRecords, docRecs, errLog,
          List.all_append, Bool.true_and, applyAll_append]

theorem finalAvg_scenarios (m : Metrics) : (finalAvg m).scenarios = m.scenarios := by
  unfold finalAvg; split_ifs <;> rfl

theorem finalAvg_samples (m : Metrics) :
    (finalAvg m).latency.samples = m.latency.samples := by
  unfold finalAvg; split_ifs <;> rfl

theorem finalAvg_bandwidth (m : Metrics) : (finalAvg m).bandwidth = m.bandwidth := by
  unfold finalAvg; split_ifs <;> rfl

theorem finalAvg_min (m : Metrics) : (finalAvg m).latency.min = m.latency.min := by
  unfold finalAvg; split_ifs <;> rfl

theorem finalAvg_max (m : Metrics) : (finalAvg m).latency.max = m.latency.max := by
  unfold finalAvg; split_ifs <;> rfl

theorem finalAvg_tests (m : Metrics) : (finalAvg m).tests = m.tests := by
  unfold finalAvg; split_ifs <;> rfl

theorem finalAvg_average (m : Metrics) :
    (finalAvg m).latency.average =
      if m.tests.isEmpty then m.latency.average
      else (m.tests.map TestEntry.duration).sum / (m.tests.length : ℚ) := by
  unfold finalAvg; split_ifs <;> rfl

theorem parse_ok_cases (fs : FileSystem) (root : String) (m : Metrics) (log : List String)
    (h : parse_test_results fs root = .ok (m, log)) :
    (globXml fs root = [] ∧ m = initMetrics ∧
      log = ["No test results found in " ++ root]) ∨
    (globXml fs root ≠ [] ∧ (goodRecords (globXml fs root)).all durOk = true ∧
      m = finalAvg (applyAll initMetrics (goodRecords (globXml fs root))) ∧
      log = errLog (globXml fs root)) := by
  simp only [parse_test_results] at h
  cases hg : (globXml fs root).isEmpty with
  | true =>
    left
    rw [hg] at h
    simp only [if_true, Except.ok.injEq, Prod.mk.injEq] at h
    exact ⟨List.isEmpty_iff.mp hg, h.1.symm, h.2.symm⟩
  | false =>
    right
    rw [hg] at h
    simp only [Bool.false_eq_true, if_false, processFiles_eq] at h
    cases hok : (goodRecords (globXml fs root)).all durOk with
    | false => rw [hok] at h; simp at h
    | true =>
      rw [hok] at h
      simp only [if_true, Except.ok.injEq, Prod.mk.injEq] at h
      refine ⟨fun hnil => by simp [hnil] at hg, rfl, h.1.symm, ?_⟩
      simpa using h.2.symm

theorem goodRecords_flatMap (files : List (String × XmlDoc)) :
    goodRecords files = files.flatMap docRecs := by
  induction files with
  | nil => rfl
  | cons f rest ih => simp [goodRecords, List.flatMap_cons, ih]

theorem perm_goodRecords {l1 l2 : List (String × XmlDoc)} (h : l1.Perm l2) :
    (goodRecords l1).Perm (goodRecords l2) := by
  rw [goodRecords_flatMap, goodRecords_flatMap]
  exact h.flatMap_right docRecs

theorem perm_any {α : Type} (p : α → Bool) {l1 l2 : List α} (h : l1.Perm l2) :
    l1.any p = l2.any p := by
  induction h with
  | nil => rfl
  | cons x _ ih => simp [List.any_cons, ih]
  | swap x y l => simp only [List.any_cons, ← Bool.or_assoc, Bool.or_comm (p y) (p x)]
  | trans _ _ ih1 ih2 => rw [ih1, ih2]

/-! ## The claims -/

/-- C1, counterexample.  A single record whose name contains both the
`TwoPlayers` and the `ThreePlayer` marker and whose diagnostic text
contains `PASS` sets only `twoPlayers`: the `elif` chain stops at the
first marker, so `threePlayers` stays `false` although the record
satisfies the claimed condition for it. -/
theorem C1_counterexample :
    strContains (pyName tcMulti) "ThreePlayer" = true ∧
    strContains (diagText tcMulti) "PASS" = true ∧
    (processTestCases initMetrics [tcMulti]).map (fun m => m.scenarios) =
      .ok { twoPlayers := true, threePlayers := false, fourPlayers := false } :=
  ⟨by decide, by decide, rfl⟩

/-- C1, amended.  Each scenario flag is true iff some record satisfies
the corresponding branch of the `if/elif` chain: `twoPlayers` iff some
record has `TwoPlayers` in its name and `PASS` in its diagnostic text;
`threePlayers` and `fourPlayers` additionally require that no earlier
branch of the chain fired for that record (`cond3`, `cond4`). -/
theorem C1_thm (fs : FileSystem) (root : String) (m : Metrics) (log : List String)
    (h : parse_test_results fs root = .ok (m, log)) :
    m.scenarios.twoPlayers = (goodRecords (globXml fs root)).any cond2 ∧
    m.scenarios.threePlayers = (goodRecords (globXml fs root)).any cond3 ∧
    m.scenarios.fourPlayers = (goodRecords (globXml fs root)).any cond4 := by
  rcases parse_ok_cases fs root m log h with ⟨hg, hm, _⟩ | ⟨_, _, hm, _⟩ <;> subst hm
  · rw [hg]
    exact ⟨rfl, rfl, rfl⟩
  · rw [finalAvg_scenarios, applyAll_eq]
    simp [initMetrics]

/-- C1, witness for the amended theorem at `fsScen`. -/
theorem C1_witness :
    mScen.scenarios.twoPlayers = (goodRecords (globXml fsScen "results")).any cond2 ∧
    mScen.scenarios.threePlayers = (goodRecords (globXml fsScen "results")).any cond3 ∧
    mScen.scenarios.fourPlayers = (goodRecords (globXml fsScen "results")).any cond4 :=
  C1_thm fsScen "results" mScen [] (by with_unfolding_all rfl)

/-- C2.  Whenever the aggregator completes, `latency.average` is 0 when
no record was collected and otherwise equals the arithmetic mean of the
collected durations. -/
theorem C2_thm (fs : FileSystem) (root : String) (m : Metrics) (log : List String)
    (h : parse_test_results fs root = .ok (m, log)) :
    (m.tests = [] → m.latency.average = 0) ∧
    (m.tests ≠ [] →
      m.latency.average = (m.tests.map TestEntry.duration).sum / (m.tests.length : ℚ)) := by
  rcases parse_ok_cases fs root m log h with ⟨_, hm, _⟩ | ⟨_, _, hm, _⟩ <;> subst hm
  · exact ⟨fun _ => rfl, fun hne => absurd rfl hne⟩
  · have htests := finalAvg_tests (applyAll initMetrics (goodRecords (globXml fs root)))
    have havg : (applyAll initMetrics (goodRecords (globXml fs root))).latency.average = 0 := by
      rw [applyAll_eq]
      rfl
    constructor
    · intro hnil
      rw [htests] at hnil
      rw [finalAvg_average, hnil]
      simpa using havg
    · intro hne
      rw [htests] at hne
      rw [finalAvg_average, htests]
      rw [if_neg (by simpa [List.isEmpty_iff] using hne)]

/-- C2, witness at a directory holding one well-formed document with
zero test cases. -/
theorem C2_witness :
    (initMetrics.tests = [] → initMetrics.latency.average = 0) ∧
    (initMetrics.tests ≠ [] →
      initMetrics.latency.average =
        (initMetrics.tests.map TestEntry.duration).sum / (initMetrics.tests.length : ℚ)) :=
  C2_thm fsEmptyDoc "results" initMetrics [] rfl

/-- C3, counterexample.  A record with the non-numeric `time` attribute
`abc` does not get duration 0.0: `float` raises a `ValueError` that no
handler catches, so the whole run aborts. -/
theorem C3_counterexample :
    tcBadTime.time = some "abc" ∧ pyFloat "abc" = none ∧
    processTestCases initMetrics [tcBadTime] = .error PyError.valueError :=
  ⟨rfl, rfl, rfl⟩

/-- C3, amended.  A missing `time` attribute yields duration 0.0; a
present attribute that `float` accepts yields its value; a present
attribute that `float` rejects raises an uncaught `ValueError`, aborting
the record (and the run) instead of defaulting to 0.0. -/
theorem C3_thm (tc : TestCase) (m : Metrics) :
    (tc.time = none → processTestCase m tc = .ok (tcApply m tc 0)) ∧
    (∀ s, tc.time = some s → pyFloat s = none →
      processTestCase m tc = .error PyError.valueError) ∧
    (∀ s q, tc.time = some s → pyFloat s = some q →
      processTestCase m tc = .ok (tcApply m tc q)) := by
  refine ⟨fun h => ?_, fun s hs hn => ?_, fun s q hs hq => ?_⟩
  · simp [processTestCase, h, extractDuration, Except.map]
  · simp [processTestCase, hs, extractDuration, hn, Except.map]
  · simp [processTestCase, hs, extractDuration, hq, Except.map]

/-- C3, witness: one record without a `time` attribute and one with the
unparsable `time` value `abc`. -/
theorem C3_witness :
    processTestCase initMetrics tcPlain = .ok (tcApply initMetrics tcPlain 0) ∧
    processTestCase initMetrics tcBadTime = .error PyError.valueError :=
  ⟨(C3_thm tcPlain initMetrics).1 rfl,
   (C3_thm tcBadTime initMetrics).2.1 "abc" rfl rfl⟩

/-- C4, counterexample.  A directory holding one structurally well-formed
document (whose record has `time="abc"`) and one malformed document
aborts the whole run with the uncaught `ValueError`, so malformed-plus-
well-formed directories are not always processed to completion. -/
theorem C4_counterexample :
    globXml fsBadMixed "results" =
      [("results/good.xml", XmlDoc.ok [tcBadTime]),
       ("results/broken.xml", XmlDoc.malformed "not well-formed: invalid token")] ∧
    parse_test_results fsBadMixed "results" = .error PyError.valueError :=
  ⟨rfl, rfl⟩

/-- C4, amended.  Provided every record of the well-formed documents has
a parseable (or absent) duration, the run completes even in the presence
of malformed documents: each malformed document contributes exactly one
`Error parsing <path>: <cause>` line, and the summary is computed from
exactly the records of the well-formed documents. -/
theorem C4_thm (fs : FileSystem) (root : String)
    (hne : globXml fs root ≠ [])
    (hgood : (goodRecords (globXml fs root)).all durOk = true) :
    parse_test_results fs root =
      .ok (finalAvg (applyAll initMetrics (goodRecords (globXml fs root))),
           errLog (globXml fs root)) := by
  have hie : (globXml fs root).isEmpty = false := by
    simpa [List.isEmpty_iff] using hne
  simp only [parse_test_results, hie, Bool.false_eq_true, if_false, processFiles_eq,
    hgood, if_true, List.nil_append]

/-- C4, witness at a directory holding one well-formed and one malformed
document. -/
theorem C4_witness :
    parse_test_results fsMixed "results" =
      .ok (finalAvg (applyAll initMetrics (goodRecords (globXml fsMixed "results"))),
           errLog (globXml fsMixed "results")) :=
  C4_thm fsMixed "results" (by decide) (by decide)

/-- C5, counterexample.  A record whose diagnostic text says `LATENCY`
matches the latency token case-insensitively, yet the source counts only
the exact spellings `Latency` and `latency`, so the sample count stays 0. -/
theorem C5_counterexample :
    strContainsCI (diagText tcLatCaps) "latency" = true ∧
    (processTestCases initMetrics [tcLatCaps]).map (fun m => m.latency.samples) =
      .ok 0 :=
  ⟨by decide, rfl⟩

/-- C5, amended.  `latency.samples` equals the number of collected
records whose diagnostic text contains `Latency` or `latency` as an
exact-case substring (each record counted at most once); other
capitalizations such as `LATENCY` do not count. -/
theorem C5_thm (fs : FileSystem) (root : String) (m : Metrics) (log : List String)
    (h : parse_test_results fs root = .ok (m, log)) :
    m.latency.samples = (goodRecords (globXml fs root)).countP condLat := by
  rcases parse_ok_cases fs root m log h with ⟨hg, hm, _⟩ | ⟨_, _, hm, _⟩ <;> subst hm
  · rw [hg]
    rfl
  · rw [finalAvg_samples, applyAll_eq]
    simp [initMetrics]

/-- C5, witness for the amended theorem at `fsLat`. -/
theorem C5_witness :
    mLat.latency.samples = (goodRecords (globXml fsLat "results")).countP condLat :=
  C5_thm fsLat "results" mLat [] (by with_unfolding_all rfl)

/-- C6, counterexample.  A nonexistent root is indistinguishable from an
existing empty root: `Path.glob` yields an empty iterator either way, so
the run returns the same empty summary with the same informational
notice, and no discovery error of any kind is raised. -/
theorem C6_counterexample :
    fsAbsent.dirs.contains "results" = false ∧
    fsEmptyRoot.dirs.contains "results" = true ∧
    parse_test_results fsAbsent "results" = parse_test_results fsEmptyRoot "results" ∧
    parse_test_results fsAbsent "results" =
      .ok (initMetrics, ["No test results found in results"]) :=
  ⟨by decide, by decide, rfl, rfl⟩

/-- C6, amended.  Whenever discovery yields no candidate file — whether
the root is missing or merely empty — the run returns the empty summary
together with the notice naming the root, and the result never depends
on which directories exist. -/
theorem C6_thm (fs : FileSystem) (root : String) (h : globXml fs root = []) :
    parse_test_results fs root =
      .ok (initMetrics, ["No test results found in " ++ root]) ∧
    ∀ ds : List String,
      parse_test_results { dirs := ds, files := fs.files } root =
        parse_test_results fs root := by
  refine ⟨?_, fun ds => rfl⟩
  simp [parse_test_results, h]

/-- C6, witness at the filesystem whose `results` root does not exist. -/
theorem C6_witness :
    parse_test_results fsAbsent "results" =
      .ok (initMetrics, ["No test results found in " ++ "results"]) :=
  (C6_thm fsAbsent "results" rfl).1

/-- C7.  With fewer than two entries in `sys.argv` (no positional
directory argument), `main` prints the usage line and exits with code 1;
the `usageExit` outcome carries no written artifact and is produced
before any filesystem access. -/
theorem C7_thm (argv : List String) (fs : FileSystem) (h : argv.length < 2) :
    main argv fs = .usageExit [usageMsg] 1 := by
  cases argv with
  | nil => rfl
  | cons a rest =>
    cases rest with
    | nil => rfl
    | cons b r =>
      simp only [List.length_cons] at h
      omega

/-- C7, witness: an invocation with the program name only. -/
theorem C7_witness :
    main ["generate_network_report.py"] fsAbsent = .usageExit [usageMsg] 1 :=
  C7_thm ["generate_network_report.py"] fsAbsent (by decide)

/-- C8.  Whenever the aggregator completes, the reserved fields
`bandwidth.upstream`, `bandwidth.downstream`, `bandwidth.peak`,
`latency.min` and `latency.max` all equal 0: no processing step writes
them. -/
theorem C8_thm (fs : FileSystem) (root : String) (m : Metrics) (log : List String)
    (h : parse_test_results fs root = .ok (m, log)) :
    m.bandwidth.upstream = 0 ∧ m.bandwidth.downstream = 0 ∧ m.bandwidth.peak = 0 ∧
    m.latency.min = 0 ∧ m.latency.max = 0 := by
  rcases parse_ok_cases fs root m log h with ⟨_, hm, _⟩ | ⟨_, _, hm, _⟩ <;> subst hm
  · exact ⟨rfl, rfl, rfl, rfl, rfl⟩
  · refine ⟨?_, ?_, ?_, ?_, ?_⟩ <;>
      simp [finalAvg_bandwidth, finalAvg_min, finalAvg_max, applyAll_eq, initMetrics]

/-- C8, witness at a directory holding one well-formed document with
zero test cases. -/
theorem C8_witness :
    initMetrics.bandwidth.upstream = 0 ∧ initMetrics.bandwidth.downstream = 0 ∧
    initMetrics.bandwidth.peak = 0 ∧
    initMetrics.latency.min = 0 ∧ initMetrics.latency.max = 0 :=
  C8_thm fsEmptyDoc "results" initMetrics [] rfl

/-- C9, counterexample.  The glob applies no ordering of its own: the two
filesystems hold the same two documents but enumerate them in opposite
orders, and the serialized `tests` sequences differ, so the artifacts are
not byte-identical. -/
theorem C9_counterexample :
    fsO2.files = fsO1.files.reverse ∧
    (parse_test_results fsO1 "r").toOption.map (fun p => p.1.tests.map TestEntry.name) =
      some ["caseA", "caseB"] ∧
    (parse_test_results fsO2 "r").toOption.map (fun p => p.1.tests.map TestEntry.name) =
      some ["caseB", "caseA"] :=
  ⟨rfl, rfl, rfl⟩

/-- C9, amended.  The output is a deterministic function of the
enumeration order the filesystem supplies; permuting that order can
permute the `tests` sequence, but every scalar summary component —
`latency`, `bandwidth`, `scenarios` — is invariant under it. -/
theorem C9_thm (fs1 fs2 : FileSystem) (root : String) (m1 m2 : Metrics)
    (log1 log2 : List String)
    (hperm : (globXml fs1 root).Perm (globXml fs2 root))
    (h1 : parse_test_results fs1 root = .ok (m1, log1))
    (h2 : parse_test_results fs2 root = .ok (m2, log2)) :
    m1.latency = m2.latency ∧ m1.bandwidth = m2.bandwidth ∧
    m1.scenarios = m2.scenarios := by
  rcases parse_ok_cases fs1 root m1 log1 h1 with ⟨hg1, hm1, _⟩ | ⟨hg1, hok1, hm1, _⟩ <;>
    rcases parse_ok_cases fs2 root m2 log2 h2 with ⟨hg2, hm2, _⟩ | ⟨hg2, hok2, hm2, _⟩
  · subst hm1; subst hm2
    exact ⟨rfl, rfl, rfl⟩
  · exact absurd ((hg1 ▸ hperm).nil_eq.symm) hg2
  · exact absurd ((hg2 ▸ hperm.symm).nil_eq.symm) hg1
  · subst hm1; subst hm2
    have hpg := perm_goodRecords hperm
    have hpe := hpg.map entryOf
    have hlen := hpe.length_eq
    have hsum := (hpe.map TestEntry.duration).sum_eq
    have hemp : ((goodRecords (globXml fs1 root)).map entryOf).isEmpty =
        ((goodRecords (globXml fs2 root)).map entryOf).isEmpty := by
      cases he1 : (goodRecords (globXml fs1 root)).map entryOf <;>
        cases he2 : (goodRecords (globXml fs2 root)).map entryOf <;> simp_all
    refine ⟨?_, ?_, ?_⟩
    · apply Latency.ext
      · rw [finalAvg_average, finalAvg_average, applyAll_eq, applyAll_eq]
        simp only [initMetrics, List.nil_append]
        rw [hemp]
        cases he : ((goodRecords (globXml fs2 root)).map entryOf).isEmpty with
        | true => simp [he]
        | false =>
          simp only [he, Bool.false_eq_true, if_false]
          rw [hsum, hlen]
      · rw [finalAvg_min, finalAvg_min, applyAll_eq, applyAll_eq]
      · rw [finalAvg_max, finalAvg_max, applyAll_eq, applyAll_eq]
      · rw [finalAvg_samples, finalAvg_samples, applyAll_eq, applyAll_eq]
        simp [hpg.countP_eq condLat]
    · rw [finalAvg_bandwidth, finalAvg_bandwidth, applyAll_eq, applyAll_eq]
    · rw [finalAvg_scenarios, finalAvg_scenarios, applyAll_eq, applyAll_eq]
      simp [perm_any cond2 hpg, perm_any cond3 hpg, perm_any cond4 hpg]

/-- C9, witness for the amended theorem at the two enumeration orders of
the same directory. -/
theorem C9_witness :
    m9a.latency = m9b.latency ∧ m9a.bandwidth = m9b.bandwidth ∧
    m9a.scenarios = m9b.scenarios :=
  C9_thm fsO1 fsO2 "r" m9a m9b [] [] (by decide)
    (by with_unfolding_all rfl) (by with_unfolding_all rfl)

/-- C10.  A record carrying a failure child still drives the scenario
flags: with `TwoPlayers` in its name and `PASS` in its diagnostic text
the `twoPlayers` flag is set while the appended entry's status is `FAIL`,
and the scenario outcome of a record never depends on its failure
child. -/
theorem C10_thm (m : Metrics) (tc : TestCase) (t : ℚ)
    (hfail : tc.failure = true)
    (hname : strContains (pyName tc) "TwoPlayers" = true)
    (hdiag : strContains (diagText tc) "PASS" = true)
    (hdur : extractDuration tc.time = .ok t) :
    processTestCase m tc = .ok (tcApply m tc t) ∧
    (tcApply m tc t).scenarios.twoPlayers = true ∧
    (tcApply m tc t).tests =
      m.tests ++ [{ name := pyName tc, «class» := pyClass tc, status := "FAIL",
                    duration := t }] ∧
    ∀ b, (tcApply m { tc with failure := b } t).scenarios =
      (tcApply m tc t).scenarios := by
  refine ⟨?_, ?_, ?_, fun b => rfl⟩
  · simp [processTestCase, hdur, Except.map]
  · rw [tcApply_eq]
    simp [cond2, hname, hdiag]
  · rw [tcApply_eq]
    simp [statusOf, hfail]

/-- C10, witness: a failing record named `TwoPlayersScenario` with
diagnostic text `Latency OK - PASS`. -/
theorem C10_witness :
    processTestCase initMetrics tcFailPass = .ok (tcApply initMetrics tcFailPass 0) ∧
    (tcApply initMetrics tcFailPass 0).scenarios.twoPlayers = true :=
  ⟨(C10_thm initMetrics tcFailPass 0 rfl (by decide) (by decide) rfl).1,
   (C10_thm initMetrics tcFailPass 0 rfl (by decide) (by decide) rfl).2.1⟩

end NetworkReport
